import Mathlib

/-!
Verification development for the smtp_discord_bridge repository.

The Rust sources are embedded shallowly:
- `src/discord.rs` : `DiscordWebhookAuth`, `DiscordWebhookAuth::from_url` and its
  error enum. The external `url` crate (`Url::parse` / `Url::path_segments`) is
  modelled abstractly by `UrlParseOutcome`: either the parse fails, or the parsed
  URL has no path-segment iterator (cannot-be-a-base URL), or it yields the list
  of path segments. The iterator's successive `next()` calls become `head?`/`tail`.
- `src/config.rs` : `DiscordConfig::get_auth` and `DiscordConfigError`.
- `src/lib.rs` : the library `DiscordMailSink` (body accumulation via
  `Sink::start_send`, dispatch via `Mail::queue` under a mutex), the
  `DiscordMailerBuilder`, and `DiscordMailer::accept`.
- `src/main.rs` : the binary's `DiscordWebhookCommand`, its dedicated webhook
  worker thread loop (`init_webhook_thread`), and the binary's
  `DiscordMailSink::queue` (UTF-8 decode, then mpsc hand-off).

External effects are parameters: the webhook transport call is a function
returning success/failure, mutex acquisition and channel liveness are booleans.
Machine integers (`u64` webhook ids) are `Nat`; byte buffers are `List Nat`.
-/

set_option autoImplicit false

/-! ## src/discord.rs -/

/-- Identifying and authentication info for a Discord webhook
(struct `DiscordWebhookAuth`, fields `id : u64`, `token : String`). -/
structure DiscordWebhookAuth where
  id : Nat
  token : String
deriving DecidableEq, Repr

/-- Constructor `DiscordWebhookAuth::new`. -/
def DiscordWebhookAuth.new (id : Nat) (token : String) : DiscordWebhookAuth :=
  { id := id, token := token }

/-- Error enum `DiscordWebhookAuthUrlError` from `src/discord.rs`.
The payloads (`url::ParseError`, `num::ParseIntError`) belong to external
crates and carry no information the bridge inspects, so they are dropped. -/
inductive DiscordWebhookAuthUrlError where
  | UrlParseError
  | UrlMissingPath
  | UrlPathMissingApi
  | UrlPathMissingWebhooks
  | UrlPathMissingId
  | IdParseError
  | UrlPathMissingToken
deriving DecidableEq, Repr

/-- Abstract outcome of the external `url` crate calls made by `from_url`:
`Url::parse` failing, a parsed URL whose `path_segments()` is `None`
(cannot-be-a-base URL), or the list of path segments in order. -/
inductive UrlParseOutcome where
  | parseFail
  | noPath
  | segments (segs : List String)

/-- One decimal digit of Rust's `u64::from_str` (`char::to_digit(10)`). -/
def charDigit (c : Char) : Option Nat :=
  if c.isDigit then some (c.toNat - 48) else none

/-- Accumulating digit loop of Rust's integer `from_str`. -/
def parseDigitsAux : Nat → List Char → Option Nat
  | acc, [] => some acc
  | acc, c :: cs =>
    match charDigit c with
    | some d => parseDigitsAux (acc * 10 + d) cs
    | none => none

/-- Model of Rust's `str::parse::<u64>()`: an optional leading `+`, then one or
more ASCII decimal digits, and the value must fit in 64 bits; anything else is
a `ParseIntError` (modelled as `none`). -/
def parseU64 (s : String) : Option Nat :=
  let cs :=
    match s.data with
    | '+' :: rest => rest
    | cs => cs
  match cs with
  | [] => none
  | _ :: _ =>
    match parseDigitsAux 0 cs with
    | some v => if v < 2 ^ 64 then some v else none
    | none => none

/-- Embedding of `DiscordWebhookAuth::from_url` (src/discord.rs, lines 25-50)
applied to the already-parsed URL. The iterator's `next()` calls are
`head?` on successive `tail`s, mirroring the early-return chain exactly. -/
def DiscordWebhookAuth.fromParsedUrl :
    UrlParseOutcome → Except DiscordWebhookAuthUrlError DiscordWebhookAuth
  | .parseFail => .error .UrlParseError
  | .noPath => .error .UrlMissingPath
  | .segments segs =>
    if segs.head? ≠ some "api" then
      .error .UrlPathMissingApi
    else if segs.tail.head? ≠ some "webhooks" then
      .error .UrlPathMissingWebhooks
    else
      match segs.tail.tail.head? with
      | some idStr =>
        match parseU64 idStr with
        | none => .error .IdParseError
        | some id =>
          match segs.tail.tail.tail.head? with
          | some token => .ok (DiscordWebhookAuth.new id token)
          | none => .error .UrlPathMissingToken
      | none => .error .UrlPathMissingId

/-- `DiscordWebhookAuth::from_url` on a URL string, with the external
WHATWG URL parser supplied as the abstract function `parse`. -/
def DiscordWebhookAuth.from_url (parse : String → UrlParseOutcome) (url : String) :
    Except DiscordWebhookAuthUrlError DiscordWebhookAuth :=
  DiscordWebhookAuth.fromParsedUrl (parse url)

/-! ## src/config.rs -/

/-- The `[discord]` section of the config file (struct `DiscordConfig`). -/
structure DiscordConfig where
  webhook_url : Option String
  webhook_id : Option Nat
  webhook_token : Option String

/-- Error enum `DiscordConfigError` from `src/config.rs`. -/
inductive DiscordConfigError where
  | NeitherUrlNorPartsSpecified
  | ConfigMissingWebhookId
  | ConfigMissingWebhookToken
  | InvalidParamCombination
  | UrlError (e : DiscordWebhookAuthUrlError)
deriving DecidableEq, Repr

/-- Embedding of `DiscordConfig::get_auth` (src/config.rs, lines 62-75):
the match over `(webhook_url, webhook_id, webhook_token)` presence. -/
def DiscordConfig.get_auth (parse : String → UrlParseOutcome) (c : DiscordConfig) :
    Except DiscordConfigError DiscordWebhookAuth :=
  match c.webhook_url, c.webhook_id, c.webhook_token with
  | none, none, none => .error .NeitherUrlNorPartsSpecified
  | none, none, some _ => .error .ConfigMissingWebhookId
  | none, some _, none => .error .ConfigMissingWebhookToken
  | none, some id, some token => .ok (DiscordWebhookAuth.new id token)
  | some url, none, none =>
    (DiscordWebhookAuth.from_url parse url).mapError DiscordConfigError.UrlError
  | some _, some _, none | some _, none, some _ | some _, some _, some _ =>
    .error .InvalidParamCombination

/-! ## src/lib.rs -/

/-- The fields of samotop's `Envelope` that the library code reads:
`queue` copies `id` and hands the whole envelope to the converter. -/
structure Envelope where
  id : String
  sender : String
  rcpts : List String
deriving DecidableEq, Repr

/-- samotop's `QueueResult`: the delivery outcome returned to the session. -/
inductive QueueResult where
  | QueuedWithId (id : String)
  | Failed
deriving DecidableEq, Repr

/-- samotop's `AcceptRecipientRequest`; the bridge reads only `rcpt`
(an `SmtpPath`, rendered as a string here). -/
structure AcceptRecipientRequest where
  name : String
  rcpt : String
deriving DecidableEq, Repr

/-- samotop's `AcceptRecipientResult`, restricted to the variants the
bridge can produce or the guard contract names. -/
inductive AcceptRecipientResult where
  | Rejected
  | Accepted (rcpt : String)
deriving DecidableEq, Repr

/-- `futures` 0.1 `AsyncSink`: `start_send` either consumed the item
(`Ready`) or handed it back (`NotReady`). -/
inductive AsyncSinkResult where
  | Ready
  | NotReady (item : List Nat)
deriving DecidableEq, Repr

/-- The library `DiscordMailer` (src/lib.rs): the bridge only ever reads its
`name` field; the webhook sender handle is external state. -/
structure DiscordMailerLib where
  name : String
deriving DecidableEq, Repr

/-- `DiscordMailer::new` (src/lib.rs, lines 66-78): constructing the
`WebhookSender` calls serenity's `get_webhook_with_token`, which can fail;
that external call's success is the boolean `webhookOk`. -/
def DiscordMailerLib.new (name : String) (webhookOk : Bool) :
    Except Unit DiscordMailerLib :=
  if webhookOk then .ok { name := name } else .error ()

/-- `DiscordMailer::accept` (src/lib.rs, lines 100-103): accept the
recipient as given, wrapped in `future::ok`. -/
def DiscordMailerLib.accept (_self : DiscordMailerLib) (request : AcceptRecipientRequest) :
    Except Unit AcceptRecipientResult :=
  .ok (.Accepted request.rcpt)

/-- `DiscordMailerBuilder` (src/lib.rs, lines 177-179). -/
structure DiscordMailerBuilder where
  name : Option String

/-- `DiscordMailerBuilder::new`. -/
def DiscordMailerBuilder.new : DiscordMailerBuilder :=
  { name := none }

/-- `DiscordMailerBuilder::with_name`. -/
def DiscordMailerBuilder.with_name (b : DiscordMailerBuilder) (name : String) :
    DiscordMailerBuilder :=
  { b with name := some name }

/-- `DiscordMailerBuilder::build` (src/lib.rs, lines 201-211):
`self.name.unwrap_or_else(|| "DiscordMailer".into())`, then `DiscordMailer::new`. -/
def DiscordMailerBuilder.build (b : DiscordMailerBuilder) (webhookOk : Bool) :
    Except Unit DiscordMailerLib :=
  DiscordMailerLib.new (b.name.getD "DiscordMailer") webhookOk

/-- The library `DiscordMailSink` (src/lib.rs, lines 215-222): envelope plus
the body buffer. The `Arc<Mutex<WebhookSender>>` handle is external state,
modelled at `queue` time. -/
structure DiscordMailSink where
  envelope : Envelope
  body : List Nat
deriving DecidableEq, Repr

/-- `DiscordMailSink::new` (src/lib.rs, lines 230-236): empty body buffer. -/
def DiscordMailSink.new (envelope : Envelope) : DiscordMailSink :=
  { envelope := envelope, body := [] }

/-- `Sink::start_send` for the library sink (src/lib.rs, lines 272-277):
extend the body buffer with the chunk and answer `Ok(AsyncSink::Ready)`. -/
def DiscordMailSink.start_send (s : DiscordMailSink) (item : List Nat) :
    Except Unit AsyncSinkResult × DiscordMailSink :=
  (.ok .Ready, { s with body := s.body ++ item })

/-- Feeding a sequence of chunks to the sink by repeated `start_send`. -/
def DiscordMailSink.feedChunks (s : DiscordMailSink) (chunks : List (List Nat)) :
    DiscordMailSink :=
  chunks.foldl (fun acc c => (acc.start_send c).2) s

/-- `Mail::queue` for the library sink (src/lib.rs, lines 244-259).
`lockOk` is the result of `self.sink.lock()` (false only for a poisoned
mutex); `transport` is `WebhookSender::send_messsage`, true on `Ok`.
The second component counts how many transport calls were made. -/
def DiscordMailSink.queue (s : DiscordMailSink) (lockOk : Bool)
    (transport : Envelope → List Nat → Bool) : QueueResult × Nat :=
  let id := s.envelope.id
  if lockOk then
    if transport s.envelope s.body then (.QueuedWithId id, 1) else (.Failed, 1)
  else
    (.Failed, 0)

/-! ## src/main.rs -/

/-- `DiscordWebhookCommand` (src/main.rs, lines 33-42). The Rust field
`from` is named `msgFrom` because `from` is reserved in Lean. -/
inductive DiscordWebhookCommand where
  | SendMessage (msgFrom : String) (recipients : List String) (body : String)
  | Shutdown
deriving DecidableEq, Repr

/-- How the webhook worker thread's loop ended. -/
inductive WorkerExit where
  | drained
  | stopped
  | crashed
deriving DecidableEq, Repr

/-- The worker loop of `init_webhook_thread` (src/main.rs, lines 104-128),
run over the sequence of commands received on the channel. `transport` is
`webhook.execute`, true on `Ok`; its result is `.unwrap()`ed, so a failed
call panics the thread (`crashed`) and no further command is processed.
Returns the transport calls actually made, in order, and how the loop ended:
`drained` when every sender hung up, `stopped` on the `Shutdown` break. -/
def runWorker (transport : String → List String → String → Bool) :
    List DiscordWebhookCommand → List (String × List String × String) × WorkerExit
  | [] => ([], .drained)
  | .Shutdown :: _ => ([], .stopped)
  | .SendMessage f r b :: rest =>
    if transport f r b then
      let res := runWorker transport rest
      ((f, r, b) :: res.1, res.2)
    else
      ([(f, r, b)], .crashed)

/-- Continuation byte of a UTF-8 multi-byte sequence. -/
def contByte (b : Nat) : Bool :=
  0x80 ≤ b && b ≤ 0xBF

/-- UTF-8 validity of a byte sequence, as checked by Rust's
`String::from_utf8` (well-formed sequences only: no surrogates, no
overlong forms, code points at most U+10FFFF). -/
def isUtf8 : List Nat → Bool
  | [] => true
  | b :: rest =>
    if b ≤ 0x7F then
      isUtf8 rest
    else if 0xC2 ≤ b && b ≤ 0xDF then
      match rest with
      | b1 :: rest1 => contByte b1 && isUtf8 rest1
      | [] => false
    else if b = 0xE0 then
      match rest with
      | b1 :: b2 :: rest2 => (0xA0 ≤ b1 && b1 ≤ 0xBF) && contByte b2 && isUtf8 rest2
      | _ => false
    else if 0xE1 ≤ b && b ≤ 0xEC then
      match rest with
      | b1 :: b2 :: rest2 => contByte b1 && contByte b2 && isUtf8 rest2
      | _ => false
    else if b = 0xED then
      match rest with
      | b1 :: b2 :: rest2 => (0x80 ≤ b1 && b1 ≤ 0x9F) && contByte b2 && isUtf8 rest2
      | _ => false
    else if 0xEE ≤ b && b ≤ 0xEF then
      match rest with
      | b1 :: b2 :: rest2 => contByte b1 && contByte b2 && isUtf8 rest2
      | _ => false
    else if b = 0xF0 then
      match rest with
      | b1 :: b2 :: b3 :: rest3 =>
        (0x90 ≤ b1 && b1 ≤ 0xBF) && contByte b2 && contByte b3 && isUtf8 rest3
      | _ => false
    else if 0xF1 ≤ b && b ≤ 0xF3 then
      match rest with
      | b1 :: b2 :: b3 :: rest3 =>
        contByte b1 && contByte b2 && contByte b3 && isUtf8 rest3
      | _ => false
    else if b = 0xF4 then
      match rest with
      | b1 :: b2 :: b3 :: rest3 =>
        (0x80 ≤ b1 && b1 ≤ 0x8F) && contByte b2 && contByte b3 && isUtf8 rest3
      | _ => false
    else
      false

/-- The binary's `DiscordMailSink` (src/main.rs, lines 175-186): message id,
rendered sender and recipients, body buffer. The mpsc sender handle is
external state, modelled at `queue` time. -/
structure MailSinkMain where
  id : String
  msgFrom : String
  recipients : List String
  body : List Nat
deriving DecidableEq, Repr

/-- `Mail::queue` for the binary sink (src/main.rs, lines 214-233):
decode the body as UTF-8 (`Failed` if not decodable), build a
`SendMessage` command, and hand it to the worker over the channel.
`workerAlive` is the mpsc send result: `send` succeeds exactly when the
receiver (the worker thread) is still alive, and a successful hand-off
yields `QueuedWithId(self.id)`. -/
def MailSinkMain.queue (m : MailSinkMain) (workerAlive : Bool) : QueueResult :=
  if isUtf8 m.body then
    if workerAlive then .QueuedWithId m.id else .Failed
  else
    .Failed

/-! ## Spec-side characterization of URL parsing (§4.1, amended) -/

/-- Spec-side restatement of the §4.1 URL rule, amended to match the code:
the path's FIRST FOUR segments must be the literal `api`, the literal
`webhooks`, a numeric (u64) id and a token, each deviation failing with the
distinct error naming the first missing or malformed part; segments after
the token are ignored. Written from the (amended) spec's words, to be
compared with `DiscordWebhookAuth.fromParsedUrl`, which is written from the
source. -/
def fromUrlSpec : UrlParseOutcome → Except DiscordWebhookAuthUrlError DiscordWebhookAuth
  | .parseFail => .error .UrlParseError
  | .noPath => .error .UrlMissingPath
  | .segments [] => .error .UrlPathMissingApi
  | .segments (s0 :: rest0) =>
    if s0 = "api" then
      match rest0 with
      | [] => .error .UrlPathMissingWebhooks
      | s1 :: rest1 =>
        if s1 = "webhooks" then
          match rest1 with
          | [] => .error .UrlPathMissingId
          | idStr :: rest2 =>
            match parseU64 idStr with
            | none => .error .IdParseError
            | some id =>
              match rest2 with
              | [] => .error .UrlPathMissingToken
              | token :: _ => .ok { id := id, token := token }
        else .error .UrlPathMissingWebhooks
    else .error .UrlPathMissingApi

/-! ## Theorems -/

/-- C1: credential resolution follows the §4.1 decision table exactly, for
every combination of presence/absence of url, id and token: all-absent
yields `NeitherUrlNorPartsSpecified`, token-only `ConfigMissingWebhookId`,
id-only `ConfigMissingWebhookToken`, id+token succeeds with
`Identity{id, token}`, url-only delegates to URL parsing, and url together
with id and/or token yields `InvalidParamCombination`. -/
theorem get_auth_decision_table (parse : String → UrlParseOutcome) :
    (DiscordConfig.get_auth parse ⟨none, none, none⟩
      = .error .NeitherUrlNorPartsSpecified)
    ∧ (∀ t, DiscordConfig.get_auth parse ⟨none, none, some t⟩
      = .error .ConfigMissingWebhookId)
    ∧ (∀ i, DiscordConfig.get_auth parse ⟨none, some i, none⟩
      = .error .ConfigMissingWebhookToken)
    ∧ (∀ i t, DiscordConfig.get_auth parse ⟨none, some i, some t⟩
      = .ok ⟨i, t⟩)
    ∧ (∀ u, DiscordConfig.get_auth parse ⟨some u, none, none⟩
      = (DiscordWebhookAuth.from_url parse u).mapError DiscordConfigError.UrlError)
    ∧ (∀ u i, DiscordConfig.get_auth parse ⟨some u, some i, none⟩
      = .error .InvalidParamCombination)
    ∧ (∀ u t, DiscordConfig.get_auth parse ⟨some u, none, some t⟩
      = .error .InvalidParamCombination)
    ∧ (∀ u i t, DiscordConfig.get_auth parse ⟨some u, some i, some t⟩
      = .error .InvalidParamCombination) := by
  refine ⟨rfl, fun t => rfl, fun i => rfl, fun i t => rfl, fun u => rfl,
    fun u i => rfl, fun u t => rfl, fun u i t => rfl⟩

/-- C2 (counterexample): parsing is claimed to succeed only when the path
decomposes into EXACTLY the four segments `api`, `webhooks`, id, token; but
a five-segment path with a trailing segment after the token also succeeds. -/
theorem from_url_exact_decomposition_refuted :
    DiscordWebhookAuth.fromParsedUrl
        (.segments ["api", "webhooks", "123", "abc", "extra"])
      = .ok ⟨123, "abc"⟩
    ∧ ¬ ∃ idStr token, (["api", "webhooks", "123", "abc", "extra"] : List String)
      = ["api", "webhooks", idStr, token] := by
  constructor
  · rfl
  · rintro ⟨idStr, token, h⟩
    simp at h

/-- C2 (amended): `from_url` succeeds if and only if the URL parses and the
path's first four segments are `api`, `webhooks`, a numeric u64 id and a
token (further segments being ignored), and each deviation fails with the
distinct error naming the missing or malformed part; only the path-segment
list affects the result. Stated as: the source function agrees everywhere
with the spec-side characterization `fromUrlSpec`. -/
theorem from_url_matches_spec (u : UrlParseOutcome) :
    DiscordWebhookAuth.fromParsedUrl u = fromUrlSpec u := by
  cases u with
  | parseFail => rfl
  | noPath => rfl
  | segments segs =>
    rcases segs with _ | ⟨s0, _ | ⟨s1, _ | ⟨s2, _ | ⟨s3, rest⟩⟩⟩⟩
    · rfl
    · by_cases h0 : s0 = "api" <;>
        simp [DiscordWebhookAuth.fromParsedUrl, fromUrlSpec, h0]
    · by_cases h0 : s0 = "api" <;> by_cases h1 : s1 = "webhooks" <;>
        simp [DiscordWebhookAuth.fromParsedUrl, fromUrlSpec, h0, h1]
    · by_cases h0 : s0 = "api" <;> by_cases h1 : s1 = "webhooks" <;>
        cases hp : parseU64 s2 <;>
        simp [DiscordWebhookAuth.fromParsedUrl, fromUrlSpec, h0, h1, hp]
    · by_cases h0 : s0 = "api" <;> by_cases h1 : s1 = "webhooks" <;>
        cases hp : parseU64 s2 <;>
        simp [DiscordWebhookAuth.fromParsedUrl, fromUrlSpec, DiscordWebhookAuth.new,
          h0, h1, hp]

/-- C8 (counterexample): credential resolution does succeed with an empty
token: a config with `webhook_id = Some 1` and `webhook_token = Some ""`
resolves to an Identity whose token is the empty string. -/
theorem get_auth_empty_token_accepted :
    DiscordConfig.get_auth (fun _ => .parseFail) ⟨none, some 1, some ""⟩
      = .ok ⟨1, ""⟩
    ∧ (DiscordWebhookAuth.mk 1 "").token = "" := by
  exact ⟨rfl, rfl⟩

/-- C8 (amended): every Identity produced by successful credential
resolution carries the configured (or URL-supplied) id and token verbatim;
no non-emptiness check is performed, so the token may be empty. -/
theorem get_auth_fields_verbatim :
    (∀ (parse : String → UrlParseOutcome) (id : Nat) (t : String),
      DiscordConfig.get_auth parse ⟨none, some id, some t⟩ = .ok ⟨id, t⟩)
    ∧ (∀ (idStr token : String) (rest : List String) (id : Nat),
      parseU64 idStr = some id →
      DiscordWebhookAuth.fromParsedUrl
          (.segments ("api" :: "webhooks" :: idStr :: token :: rest))
        = .ok ⟨id, token⟩) := by
  constructor
  · intro parse id t
    rfl
  · intro idStr token rest id h
    simp [DiscordWebhookAuth.fromParsedUrl, DiscordWebhookAuth.new, h]

/-- C8 (witness for the amended theorem): at id 7, token `"t"`, and the URL
path `api/webhooks/123/abc/extra`. -/
theorem get_auth_fields_verbatim_witness :
    DiscordConfig.get_auth (fun _ => .parseFail) ⟨none, some 7, some "t"⟩ = .ok ⟨7, "t"⟩
    ∧ DiscordWebhookAuth.fromParsedUrl
        (.segments ["api", "webhooks", "123", "abc", "extra"])
      = .ok ⟨123, "abc"⟩ :=
  ⟨get_auth_fields_verbatim.1 (fun _ => .parseFail) 7 "t",
   get_auth_fields_verbatim.2 "123" "abc" ["extra"] 123 (by decide)⟩

/-- C9: `from_url` does not require the path to end after the token: when
the first four segments are `api`, `webhooks`, a numeric id and a token,
parsing succeeds with that id and token, whatever segments follow. -/
theorem from_url_ignores_trailing_segments (idStr token : String)
    (rest : List String) (id : Nat) (h : parseU64 idStr = some id) :
    DiscordWebhookAuth.fromParsedUrl
        (.segments ("api" :: "webhooks" :: idStr :: token :: rest))
      = .ok ⟨id, token⟩ := by
  simp [DiscordWebhookAuth.fromParsedUrl, DiscordWebhookAuth.new, h]

/-- C9 (witness): the spec example with a trailing `extra` segment. -/
theorem from_url_ignores_trailing_segments_witness :
    DiscordWebhookAuth.fromParsedUrl
        (.segments ["api", "webhooks", "987654321", "tok", "extra"])
      = .ok ⟨987654321, "tok"⟩ :=
  from_url_ignores_trailing_segments "987654321" "tok" ["extra"] 987654321 (by decide)

/-- C3: dispatch of a finalized mail through the library sink. Whenever the
mutex is acquired, `queue` returns `QueuedWithId` with the mail's envelope
id exactly when the transport call succeeds and `Failed` otherwise; a
poisoned lock also yields `Failed`; and at most one transport call is ever
made per mail (no retry). -/
theorem queue_transport_outcome (s : DiscordMailSink)
    (transport : Envelope → List Nat → Bool) :
    ((s.queue true transport).1
      = if transport s.envelope s.body then .QueuedWithId s.envelope.id else .Failed)
    ∧ (∀ lockOk, (s.queue lockOk transport).2 ≤ 1)
    ∧ (s.queue false transport).1 = .Failed := by
  refine ⟨?_, ?_, rfl⟩
  · cases h : transport s.envelope s.body <;> simp [DiscordMailSink.queue, h]
  · intro lockOk
    cases lockOk <;> cases h : transport s.envelope s.body <;>
      simp [DiscordMailSink.queue, h]

/-- C4: the binary's dispatch worker does NOT survive a transport failure.
A mail with a valid UTF-8 body is handed off with outcome `QueuedWithId`
(not `Failed`), and when its webhook call fails the worker `.unwrap()`s the
error and panics: the loop ends `crashed` and the second command is never
executed, so the subsequent mail is not delivered. This evaluates the code
at the failing input of the claim. -/
theorem worker_crash_on_transport_failure :
    MailSinkMain.queue ⟨"m1", "alice", ["bob"], [104, 105]⟩ true
      = .QueuedWithId "m1"
    ∧ runWorker (fun _ _ _ => false)
        [DiscordWebhookCommand.SendMessage "alice" ["bob"] "hi",
         DiscordWebhookCommand.SendMessage "carol" ["dave"] "yo"]
      = ([("alice", ["bob"], "hi")], .crashed) := by
  exact ⟨rfl, rfl⟩

/-- `SendMessage` commands of a command list, in order, as transport calls. -/
def sends : List DiscordWebhookCommand → List (String × List String × String)
  | [] => []
  | .SendMessage f r b :: rest => (f, r, b) :: sends rest
  | .Shutdown :: rest => sends rest

/-- Whether a command is a `SendMessage`. -/
def DiscordWebhookCommand.isSend : DiscordWebhookCommand → Bool
  | .SendMessage _ _ _ => true
  | .Shutdown => false

/-- C5: once a `Shutdown` command is reached, the worker executes exactly
the deliveries handed off before it and then stops (exit `stopped`, so the
receiver is dropped and no later command is accepted); and every submit
made once the worker is gone returns the explicit outcome `Failed` — it is
never silently dropped without an outcome. -/
theorem shutdown_drains_then_fails_fast :
    (∀ (transport : String → List String → String → Bool)
        (cmds post : List DiscordWebhookCommand),
      (∀ f r b, transport f r b = true) →
      cmds.all DiscordWebhookCommand.isSend = true →
      runWorker transport (cmds ++ DiscordWebhookCommand.Shutdown :: post)
        = (sends cmds, .stopped))
    ∧ (∀ m : MailSinkMain, m.queue false = .Failed) := by
  constructor
  · intro transport cmds post htr hall
    induction cmds with
    | nil => rfl
    | cons c cs ih =>
      rw [List.all_cons, Bool.and_eq_true] at hall
      obtain ⟨h1, h2⟩ := hall
      cases c with
      | Shutdown => simp [DiscordWebhookCommand.isSend] at h1
      | SendMessage f r b =>
        simp [runWorker, htr f r b, sends, ih h2]
  · intro m
    cases h : isUtf8 m.body <;> simp [MailSinkMain.queue, h]

/-- C5 (witness): one delivery, then `Shutdown`, with an always-succeeding
transport; and a concrete post-shutdown submit failing fast. -/
theorem shutdown_drains_then_fails_fast_witness :
    runWorker (fun _ _ _ => true)
        ([DiscordWebhookCommand.SendMessage "alice" ["bob"] "hi"]
          ++ DiscordWebhookCommand.Shutdown :: [])
      = ([("alice", ["bob"], "hi")], .stopped)
    ∧ MailSinkMain.queue ⟨"m2", "alice", ["bob"], [104]⟩ false = .Failed :=
  ⟨shutdown_drains_then_fails_fast.1 (fun _ _ _ => true)
      [DiscordWebhookCommand.SendMessage "alice" ["bob"] "hi"] []
      (fun _ _ _ => rfl) (by decide),
   shutdown_drains_then_fails_fast.2 ⟨"m2", "alice", ["bob"], [104]⟩⟩

/-- Helper for C6: feeding chunks appends their concatenation to the body. -/
theorem feedChunks_body (s : DiscordMailSink) (chunks : List (List Nat)) :
    (s.feedChunks chunks).body = s.body ++ chunks.flatten := by
  induction chunks generalizing s with
  | nil => simp [DiscordMailSink.feedChunks]
  | cons c cs ih =>
    have h := ih (s.start_send c).2
    simp only [DiscordMailSink.feedChunks, List.foldl_cons] at h ⊢
    simp only [DiscordMailSink.start_send] at h ⊢
    rw [h]
    simp [List.append_assoc]

/-- C6: on a freshly created accumulator, every `start_send` succeeds with
`Ok(AsyncSink::Ready)` (no error, no size rejection), and after feeding any
finite sequence of chunks the body is exactly their concatenation in order,
with no extra or missing bytes. -/
theorem sink_accumulates_chunks (e : Envelope) (chunks : List (List Nat)) :
    ((DiscordMailSink.new e).feedChunks chunks).body = chunks.flatten
    ∧ ∀ (s : DiscordMailSink) (c : List Nat), (s.start_send c).1 = .ok .Ready := by
  constructor
  · have h := feedChunks_body (DiscordMailSink.new e) chunks
    simpa [DiscordMailSink.new] using h
  · intro s c
    rfl

/-- C7: the session gate returns `Accepted` carrying exactly the proposed
recipient, unchanged, for every request; it never rejects and, being a pure
function, has no other effect. -/
theorem accept_returns_proposed_recipient (m : DiscordMailerLib)
    (request : AcceptRecipientRequest) :
    m.accept request = .ok (.Accepted request.rcpt) :=
  rfl

/-- C10: a builder on which `with_name` was never called builds a mailer
whose name is the default `"DiscordMailer"`; after `with_name n`, the built
mailer's name is `n`. -/
theorem builder_name_default_or_given :
    ((DiscordMailerBuilder.new.build true).map DiscordMailerLib.name
      = .ok "DiscordMailer")
    ∧ ∀ n : String,
      ((DiscordMailerBuilder.new.with_name n).build true).map DiscordMailerLib.name
        = .ok n := by
  exact ⟨rfl, fun n => rfl⟩
